import Mathlib

/-!
Verification of the Game Center automation scripts (tools/setup_game_center.py,
tools/upload_gc_images.py, tools/add_gc_to_review.py, tools/submit_gc_for_review.py,
tools/generate_gc_images.py) against their natural-language specification.

The HTTP layer is shallowly embedded: a network is an oracle function from a
request to the response the remote API would give, and each embedded function
additionally returns the trace of requests it issued and of lines it printed,
so that frame properties (which requests were made, what was printed) are
statable.  Machine behaviour that the scripts never exercise on the claims
(TLS, JSON serialisation) is not modelled; response bodies are modelled at the
level of the fields the scripts read.
-/

namespace NumberMarch

/-- One HTTP response to a paginated GET, as the scripts read it: the status
code, the raw text (used only in error diagnostics), the `data` array of items
and the optional `links.next` URL.  Embeds the response shape consumed by
`api_get_all_pages` in upload_gc_images.py / submit_gc_for_review.py and
`get_all_pages` in add_gc_to_review.py. -/
structure PageResp (α : Type) where
  status : Nat
  text : String
  data : List α
  next : Option String

/-- The diagnostic line printed by the fetchers on a non-200 response:
`print(f"    GET ERROR {resp.status_code}: {resp.text[:500]}")`. -/
def getErrorLine (resp : PageResp α) : String :=
  "    GET ERROR " ++ toString resp.status ++ ": " ++ resp.text.take 500

/-- The body of the `while url:` loop of `api_get_all_pages`, with the network
as an oracle `net` from URL to response and explicit fuel standing for the
unbounded iteration of the while loop.  `acc` is `all_data`, `out` the printed
lines.  On a non-200 response the loop prints the diagnostic and breaks; on a
200 response it extends `all_data` with `result.get("data", [])` and continues
with `result.get("links", {}).get("next")`. -/
def getAllPagesAux (net : String → PageResp α) :
    Nat → Option String → List α → List String → List α × List String
  | _, none, acc, out => (acc, out)
  | 0, some _, acc, out => (acc, out)
  | fuel + 1, some url, acc, out =>
      let resp := net url
      if resp.status = 200 then
        getAllPagesAux net fuel resp.next (acc ++ resp.data) out
      else
        (acc, out ++ [getErrorLine resp])

/-- Embeds `api_get_all_pages(token, path, params)` (upload_gc_images.py lines
106-119, identically submit_gc_for_review.py lines 65-77 and `get_all_pages`
in add_gc_to_review.py lines 74-85, which differ only in the text of the
diagnostic): fetch every page starting from `url`, following `links.next`
until absent, and return the accumulated items together with the printed
lines. -/
def api_get_all_pages (net : String → PageResp α) (fuel : Nat) (url : String) :
    List α × List String :=
  getAllPagesAux net fuel (some url) [] []

/-- `followsChain net us` states that the URLs `us` form a complete page
chain under `net`: every page answers 200, each page links to the next URL of
the list, and the last page has no next link. -/
def followsChain (net : String → PageResp α) : List String → Bool
  | [] => true
  | u :: rest =>
      (net u).status == 200 && (net u).next == rest.head? && followsChain net rest

/-- `followsChainTo net us b` states that the URLs `us` all answer 200 and
link consecutively, with the last of them linking to the URL `b` (when `us`
is empty, the chain starts directly at `b`). -/
def followsChainTo (net : String → PageResp α) : List String → String → Bool
  | [], _ => true
  | u :: rest, b =>
      (net u).status == 200 && (net u).next == some (rest.headD b) &&
        followsChainTo net rest b

theorem getAllPagesAux_chain (net : String → PageResp α) :
    ∀ (us : List String) (fuel : Nat) (acc : List α) (out : List String),
      followsChain net us = true → us.length ≤ fuel →
      getAllPagesAux net fuel us.head? acc out
        = (acc ++ (us.map fun v => (net v).data).flatten, out) := by
  intro us
  induction us with
  | nil =>
      intro fuel acc out _ _
      cases fuel <;> simp [getAllPagesAux]
  | cons u rest ih =>
      intro fuel acc out hchain hfuel
      cases fuel with
      | zero => simp at hfuel
      | succ f =>
          simp only [followsChain, Bool.and_eq_true, beq_iff_eq] at hchain
          obtain ⟨⟨h200, hnext⟩, hrest⟩ := hchain
          simp only [List.head?_cons, getAllPagesAux, h200, if_pos, hnext]
          rw [ih f (acc ++ (net u).data) out hrest (by simpa using Nat.succ_le_succ_iff.mp hfuel)]
          simp [List.append_assoc]

theorem getAllPagesAux_chainTo (net : String → PageResp α) (b : String)
    (hbad : (net b).status ≠ 200) :
    ∀ (us : List String) (fuel : Nat) (acc : List α) (out : List String),
      followsChainTo net us b = true → us.length < fuel →
      getAllPagesAux net fuel (some (us.headD b)) acc out
        = (acc ++ (us.map fun v => (net v).data).flatten,
           out ++ [getErrorLine (net b)]) := by
  intro us
  induction us with
  | nil =>
      intro fuel acc out _ hfuel
      cases fuel with
      | zero => simp at hfuel
      | succ f => simp [getAllPagesAux, hbad]
  | cons u rest ih =>
      intro fuel acc out hchain hfuel
      cases fuel with
      | zero => simp at hfuel
      | succ f =>
          simp only [followsChainTo, Bool.and_eq_true, beq_iff_eq] at hchain
          obtain ⟨⟨h200, hnext⟩, hrest⟩ := hchain
          simp only [List.headD_cons, getAllPagesAux, h200, if_pos, hnext]
          rw [ih f (acc ++ (net u).data) out hrest (by simpa using Nat.succ_lt_succ_iff.mp hfuel)]
          simp [List.append_assoc]

/-- Claim C1: for every network in which the URLs `u :: urls` form a complete
page chain (each page answers 200 with a list of items and a next link, except
the final page, which lacks a next link), `api_get_all_pages` starting at `u`
returns the concatenation of the data lists of all pages in page order, with
in-page order preserved, and prints nothing. -/
theorem api_get_all_pages_concatenates_pages (net : String → PageResp α)
    (u : String) (urls : List String) (fuel : Nat)
    (hchain : followsChain net (u :: urls) = true)
    (hfuel : urls.length < fuel) :
    api_get_all_pages net fuel u
      = (((u :: urls).map fun v => (net v).data).flatten, []) := by
  have h := getAllPagesAux_chain net (u :: urls) fuel [] [] hchain
    (by simpa using hfuel)
  simpa [api_get_all_pages] using h

/-- Network used to instantiate the pagination theorems: two good pages of two
items each, one further URL answering 500. -/
def wPageNet : String → PageResp Nat
  | "a" => { status := 200, text := "", data := [1, 2], next := some "b" }
  | "b" => { status := 200, text := "", data := [3, 4], next := none }
  | "c" => { status := 200, text := "", data := [5, 6], next := some "d" }
  | "d" => { status := 500, text := "boom", data := [], next := none }
  | _ => { status := 404, text := "", data := [], next := none }

theorem api_get_all_pages_concatenates_pages_witness :
    api_get_all_pages wPageNet 3 "a"
      = ((["a", "b"].map fun v => (wPageNet v).data).flatten, []) :=
  api_get_all_pages_concatenates_pages wPageNet "a" ["b"] 3 (by decide) (by decide)

/-- Claim C4: whenever the paginated fetcher reaches a page answering a
non-200 status after a chain of good pages, it prints one diagnostic line,
stops following further pages, and returns the items accumulated from the
pages already fetched (the empty list when the very first page fails) as an
ordinary list rather than a failure value. -/
theorem api_get_all_pages_partial_on_error (net : String → PageResp α)
    (us : List String) (b : String) (fuel : Nat)
    (hgood : followsChainTo net us b = true)
    (hbad : (net b).status ≠ 200)
    (hfuel : us.length < fuel) :
    api_get_all_pages net fuel (us.headD b)
      = ((us.map fun v => (net v).data).flatten, [getErrorLine (net b)]) := by
  have h := getAllPagesAux_chainTo net b hbad us fuel [] [] hgood hfuel
  simpa [api_get_all_pages] using h

theorem api_get_all_pages_partial_on_error_witness :
    api_get_all_pages wPageNet 2 (["c"].headD "d")
      = (((["c"] : List String).map fun v => (wPageNet v).data).flatten,
         [getErrorLine (wPageNet "d")]) :=
  api_get_all_pages_partial_on_error wPageNet ["c"] "d" 2 (by decide) (by decide)
    (by decide)

/-- One entry of the `uploadOperations` array of an upload reservation, as
read by `upload_image_data` (upload_gc_images.py lines 124-142): the HTTP
method, destination URL, request headers, byte offset (`op.get("offset", 0)`)
and byte length (`op["length"]`). -/
structure UploadOp where
  method : String
  url : String
  requestHeaders : List (String × String)
  offset : Nat
  length : Nat
deriving DecidableEq

/-- The slice `file_data[offset:offset + length]` sent for one upload
operation. -/
def chunkOf (fileData : List β) (op : UploadOp) : List β :=
  (fileData.drop op.offset).take op.length

/-- Embeds `upload_image_data(upload_operations, file_path)`: for each
operation in order, slice `file_data[offset:offset + length]` and issue the
request with that body; on the first response outside {200, 201, 204} report
the error and return False, otherwise return True.  `net` is the oracle
giving the status of each request; `fileData` is the byte content of the
local file.  The second component is the trace of (operation, body) requests
actually issued, which includes the failing request itself. -/
def upload_image_data (net : UploadOp → Nat) (fileData : List β) :
    List UploadOp → Bool × List (UploadOp × List β)
  | [] => (true, [])
  | op :: rest =>
      let chunk := chunkOf fileData op
      let status := net op
      if status = 200 ∨ status = 201 ∨ status = 204 then
        let r := upload_image_data net fileData rest
        (r.1, (op, chunk) :: r.2)
      else
        (false, [(op, chunk)])

/-- `rangesContigFrom s ranges S` states that the (offset, length) pairs in
`ranges`, taken in list order, tile the byte interval from `s` to `S` with no
gap or overlap: the first offset is `s`, each next offset is the previous
offset plus the previous length, and the lengths sum up to exactly `S - s`. -/
def rangesContigFrom (s : Nat) : List (Nat × Nat) → Nat → Bool
  | [], S => s == S
  | (o, l) :: rest, S => o == s && rangesContigFrom (s + l) rest S

theorem flatten_chunks_of_contig (fileData : List β) :
    ∀ (rs : List (Nat × Nat)) (s : Nat),
      rangesContigFrom s rs fileData.length = true →
      (rs.map fun r => (fileData.drop r.1).take r.2).flatten = fileData.drop s := by
  intro rs
  induction rs with
  | nil =>
      intro s h
      simp only [rangesContigFrom, beq_iff_eq] at h
      simp [h, List.drop_length]
  | cons r rest ih =>
      intro s h
      obtain ⟨o, l⟩ := r
      simp only [rangesContigFrom, Bool.and_eq_true, beq_iff_eq] at h
      obtain ⟨ho, hrest⟩ := h
      have hdd : fileData.drop (s + l) = (fileData.drop s).drop l := by
        rw [List.drop_drop, Nat.add_comm]
      rw [List.map_cons, List.flatten_cons, ih (s + l) hrest, ho, hdd,
        List.take_append_drop]

/-- Claim C2: for every file and every reservation whose upload operations
declare byte ranges partitioning the file (witnessed by an arrangement
`sorted` of the operations whose ranges are contiguous from offset 0 through
the file length, which is exactly the arrangement in increasing offset
order), and whose uploads are all accepted, `upload_image_data` succeeds,
sends for each operation exactly the bytes
`file_data[offset:offset + length]`, and the concatenation of the chunks
sent, ordered by offset, is byte-for-byte the content of the file. -/
theorem upload_image_data_reassembles_file (net : UploadOp → Nat)
    (fileData : List β) (ops sorted : List UploadOp)
    (hperm : sorted.Perm ops)
    (hcontig : rangesContigFrom 0 (sorted.map fun op => (op.offset, op.length))
        fileData.length = true)
    (hok : ∀ op ∈ ops, net op = 200 ∨ net op = 201 ∨ net op = 204) :
    (upload_image_data net fileData ops).1 = true ∧
    (upload_image_data net fileData ops).2
      = ops.map (fun op => (op, chunkOf fileData op)) ∧
    (sorted.map (chunkOf fileData)).Perm
      ((upload_image_data net fileData ops).2.map Prod.snd) ∧
    (sorted.map (chunkOf fileData)).flatten = fileData := by
  have hsent : (upload_image_data net fileData ops).2
      = ops.map (fun op => (op, chunkOf fileData op)) := by
    clear hperm hcontig
    induction ops with
    | nil => rfl
    | cons op rest ih =>
        have hop := hok op (List.mem_cons_self op rest)
        simp only [upload_image_data, hop, if_pos, List.map_cons]
        exact congrArg _ (ih fun o ho => hok o (List.mem_cons_of_mem op ho))
  refine ⟨?_, hsent, ?_, ?_⟩
  · clear hperm hcontig hsent
    induction ops with
    | nil => rfl
    | cons op rest ih =>
        have hop := hok op (List.mem_cons_self op rest)
        simp only [upload_image_data, hop, if_pos]
        exact ih fun o ho => hok o (List.mem_cons_of_mem op ho)
  · rw [hsent, List.map_map]
    have : (Prod.snd ∘ fun op => (op, chunkOf fileData op)) = chunkOf fileData := rfl
    rw [this]
    exact hperm.map (chunkOf fileData)
  · have h := flatten_chunks_of_contig fileData
      (sorted.map fun op => (op.offset, op.length)) 0 hcontig
    simp only [List.map_map] at h
    simpa [chunkOf, Function.comp] using h

/-- Two upload operations splitting a four-byte file, listed out of offset
order. -/
def wOp1 : UploadOp :=
  { method := "PUT", url := "u1", requestHeaders := [], offset := 0, length := 2 }

def wOp2 : UploadOp :=
  { method := "PUT", url := "u2", requestHeaders := [], offset := 2, length := 2 }

theorem upload_image_data_reassembles_file_witness :
    (upload_image_data (fun _ => 200) [10, 20, 30, 40] [wOp2, wOp1]).1 = true ∧
    (upload_image_data (fun _ => 200) [10, 20, 30, 40] [wOp2, wOp1]).2
      = [wOp2, wOp1].map (fun op => (op, chunkOf [10, 20, 30, 40] op)) ∧
    ([wOp1, wOp2].map (chunkOf [10, 20, 30, 40])).Perm
      ((upload_image_data (fun _ => 200) [10, 20, 30, 40] [wOp2, wOp1]).2.map
        Prod.snd) ∧
    ([wOp1, wOp2].map (chunkOf [10, 20, 30, 40])).flatten = [10, 20, 30, 40] :=
  upload_image_data_reassembles_file (fun _ => 200) [10, 20, 30, 40]
    [wOp2, wOp1] [wOp1, wOp2] (List.Perm.swap wOp2 wOp1 [])
    (by decide) (by decide)

/-- One HTTP response as the mutating-call wrappers read it: status code, raw
text (used in diagnostics) and the parsed JSON body `resp.json()`, abstracted
as a value of type `α`. -/
structure HttpResp (α : Type) where
  status : Nat
  text : String
  json : α

/-- Embeds `api_post(token, path, data)` (upload_gc_images.py lines 76-83,
setup_game_center.py lines 121-128, submit_gc_for_review.py lines 56-62,
which differ only in the wording of the diagnostic): on status 200 or 201
return the parsed JSON, otherwise print one error line and return the None
sentinel.  The second component is the list of printed lines. -/
def api_post (resp : HttpResp α) : Option α × List String :=
  if resp.status = 200 ∨ resp.status = 201 then (some resp.json, [])
  else (none, ["    POST ERROR " ++ toString resp.status ++ ": " ++ resp.text.take 500])

/-- Embeds `api_patch(token, path, data)` (upload_gc_images.py lines 86-93):
on status 200 return the parsed JSON, otherwise print one error line and
return the None sentinel. -/
def api_patch (resp : HttpResp α) : Option α × List String :=
  if resp.status = 200 then (some resp.json, [])
  else (none, ["    PATCH ERROR " ++ toString resp.status ++ ": " ++ resp.text.take 500])

/-- Embeds `api_delete(token, path)` (upload_gc_images.py lines 96-103): on
status 200 or 204 return True, otherwise print one error line and return
False. -/
def api_delete (resp : HttpResp α) : Bool × List String :=
  if resp.status = 200 ∨ resp.status = 204 then (true, [])
  else (false, ["    DELETE ERROR " ++ toString resp.status ++ ": " ++ resp.text.take 500])

/-- Embeds `api_post(token, url, data)` of add_gc_to_review.py lines 63-67:
on status 200 or 201 return the parsed JSON, otherwise return the raw
response object itself as the failure value, printing nothing; callers detect
the failure with `isinstance(r, dict)`, modelled by the `Except`
discrimination. -/
def addReview_api_post (resp : HttpResp α) : Except (HttpResp α) α :=
  if resp.status = 200 ∨ resp.status = 201 then Except.ok resp.json
  else Except.error resp

/-- Claim C3 as stated is false on the code: status 202 is a 2xx status, yet
`api_post` and `api_patch` answer the None sentinel with an error diagnostic
for it, and `api_delete` even rejects the 2xx status 201. -/
theorem api_wrappers_2xx_counterexample :
    200 ≤ 202 ∧ 202 < 300 ∧
    (api_post (HttpResp.mk 202 "" 0)).1 = none ∧
    (api_patch (HttpResp.mk 202 "" 0)).1 = none ∧
    (api_delete (HttpResp.mk 201 "" (0 : Nat))).1 = false := by
  refine ⟨by decide, by decide, ?_, ?_, ?_⟩ <;> rfl

/-- Claim C3 amended: each mutating-call wrapper treats exactly its accepted
status set as success — {200, 201} for `api_post`, {200} for `api_patch`,
{200, 204} for `api_delete` — returning the parsed JSON payload (or True for
delete) and printing nothing; any other status, including other 2xx statuses,
yields exactly one printed diagnostic plus the sentinel failure value (None,
or False for delete) rather than a structured error, detected by the caller
with a type check; the `api_post` of add_gc_to_review.py instead returns the
raw response object as its sentinel, printing nothing. -/
theorem api_wrappers_sentinel_behaviour (α : Type) (resp : HttpResp α) :
    ((api_post resp).1 = some resp.json ∧ (api_post resp).2 = []
        ↔ resp.status = 200 ∨ resp.status = 201) ∧
    ((api_post resp).1 = none ∧ (api_post resp).2.length = 1
        ↔ ¬(resp.status = 200 ∨ resp.status = 201)) ∧
    ((api_patch resp).1 = some resp.json ∧ (api_patch resp).2 = []
        ↔ resp.status = 200) ∧
    ((api_patch resp).1 = none ∧ (api_patch resp).2.length = 1
        ↔ ¬resp.status = 200) ∧
    ((api_delete resp).1 = true ∧ (api_delete resp).2 = []
        ↔ resp.status = 200 ∨ resp.status = 204) ∧
    ((api_delete resp).1 = false ∧ (api_delete resp).2.length = 1
        ↔ ¬(resp.status = 200 ∨ resp.status = 204)) ∧
    (addReview_api_post resp = Except.ok resp.json
        ↔ resp.status = 200 ∨ resp.status = 201) ∧
    (addReview_api_post resp = Except.error resp
        ↔ ¬(resp.status = 200 ∨ resp.status = 201)) := by
  by_cases h200 : resp.status = 200 <;>
    by_cases h201 : resp.status = 201 <;>
    by_cases h204 : resp.status = 204 <;>
    simp [api_post, api_patch, api_delete, addReview_api_post, h200, h201, h204]

/-- The JWT claim set built by `generate_token(key_id, issuer_id, key_file)`
(setup_game_center.py lines 92-109, identically in the other scripts).  Time
is embedded as seconds: `iat` is `datetime.now(timezone.utc)` and `exp` is
`now + timedelta(minutes=20)`. -/
structure TokenPayload where
  iss : String
  iat : Int
  exp : Int
  aud : String
deriving DecidableEq

/-- The JWT header built by `generate_token`. -/
structure TokenHeader where
  alg : String
  kid : String
  typ : String
deriving DecidableEq

/-- Embeds `generate_token`: the signing itself (`jwt.encode` over the key
file content) is a pure local computation and is abstracted away; what is
modelled is the claim set and header it signs, with `now` the current UTC
time in seconds. -/
def generate_token (key_id issuer_id : String) (now : Int) :
    TokenPayload × TokenHeader :=
  ({ iss := issuer_id, iat := now, exp := now + 20 * 60,
     aud := "appstoreconnect-v1" },
   { alg := "ES256", kid := key_id, typ := "JWT" })

/-- Claim C5: for every token produced by `generate_token`, whatever the
generation time, the expiry claim is the issue time plus exactly 20 minutes
(1200 seconds). -/
theorem generate_token_expiry_window (key_id issuer_id : String) (now : Int) :
    (generate_token key_id issuer_id now).1.exp
        - (generate_token key_id issuer_id now).1.iat = 20 * 60 ∧
    (generate_token key_id issuer_id now).1.iat = now := by
  constructor
  · simp [generate_token]
  · rfl

/-- One entry of the SCORE_LEADERBOARDS configuration list of
setup_game_center.py. -/
structure LbConfig where
  referenceName : String
  vendorIdentifier : String
  submissionType : String
  scoreSortType : String
  scoreRangeStart : String
  scoreRangeEnd : String
  defaultFormatter : String
deriving DecidableEq

/-- One entry of the ACHIEVEMENTS configuration list of
setup_game_center.py. -/
structure AchConfig where
  referenceName : String
  vendorIdentifier : String
  points : Nat
  repeatable : Bool
  showBeforeEarned : Bool
deriving DecidableEq

/-- One entry of the ACHIEVEMENT_LOCALIZATIONS table of
setup_game_center.py. -/
structure AchLoc where
  name : String
  beforeEarnedDescription : String
  afterEarnedDescription : String
deriving DecidableEq

/-- NUM_LEVELS of setup_game_center.py. -/
def NUM_LEVELS : Nat := 60

/-- The SCORE_LEADERBOARDS list of setup_game_center.py lines 39-50: one
best-score leaderboard per level. -/
def SCORE_LEADERBOARDS : List LbConfig :=
  (List.range NUM_LEVELS).map fun i =>
    { referenceName := "Level " ++ toString (i + 1) ++ " - Best Score",
      vendorIdentifier := "level_" ++ toString (i + 1) ++ "_score",
      submissionType := "BEST_SCORE",
      scoreSortType := "DESC",
      scoreRangeStart := "0",
      scoreRangeEnd := "9999",
      defaultFormatter := "INTEGER" }

/-- The ACHIEVEMENTS list of setup_game_center.py lines 53-71: one
achievement per level plus one for completing all levels. -/
def ACHIEVEMENTS : List AchConfig :=
  ((List.range NUM_LEVELS).map fun i =>
    { referenceName := "Level " ++ toString (i + 1) ++ " Complete",
      vendorIdentifier := "level_" ++ toString (i + 1) ++ "_complete",
      points := 1,
      repeatable := false,
      showBeforeEarned := true })
  ++ [{ referenceName := "All Levels Complete",
        vendorIdentifier := "all_levels_complete",
        points := 40,
        repeatable := false,
        showBeforeEarned := true }]

/-- One network request issued by setup_game_center.py, used as the trace
alphabet of its embedded functions. -/
inductive SetupCall
  | getGCDetail
  | postGCDetail
  | createLeaderboard (cfg : LbConfig)
  | createLbLocalization (lbId : String) (name : String) (formatterSuffix : String)
  | createAchievement (cfg : AchConfig)
  | createAchLocalization (achId : String) (loc : AchLoc)
deriving DecidableEq

/-- Embeds `create_all_leaderboards(token, gc_detail_id)` (setup_game_center.py
lines 229-241) over an arbitrary configuration list: for each configuration,
POST the leaderboard (`net` gives the created id, or None on a non-2xx
response); on success POST its en-US localization with the reference name and
the " pts" formatter suffix, on failure print FAILED; in both cases continue
with the next configuration.  The result is the trace of requests issued. -/
def create_all_leaderboards (net : LbConfig → Option String) :
    List LbConfig → List SetupCall
  | [] => []
  | lb :: rest =>
      (match net lb with
       | some lbId =>
           [SetupCall.createLeaderboard lb,
            SetupCall.createLbLocalization lbId lb.referenceName " pts"]
       | none => [SetupCall.createLeaderboard lb])
      ++ create_all_leaderboards net rest

/-- Embeds `create_all_achievements(token, gc_detail_id)` (setup_game_center.py
lines 293-307) over an arbitrary configuration list, with `locTable` the
ACHIEVEMENT_LOCALIZATIONS lookup: for each configuration, POST the
achievement; on success POST its localization, on failure print FAILED; in
both cases continue with the next configuration. -/
def create_all_achievements (net : AchConfig → Option String)
    (locTable : String → AchLoc) : List AchConfig → List SetupCall
  | [] => []
  | ach :: rest =>
      (match net ach with
       | some achId =>
           [SetupCall.createAchievement ach,
            SetupCall.createAchLocalization achId (locTable ach.vendorIdentifier)]
       | none => [SetupCall.createAchievement ach])
      ++ create_all_achievements net locTable rest

/-- Claim C6: in both batch create loops, whatever per-item successes and
failures the network returns, the trace of create requests issued is exactly
one create per configured item, in configuration order: a failed single-item
create never prevents any subsequent item of the same batch from being
attempted, so a run can partially succeed. -/
theorem batch_create_attempts_every_item (net : LbConfig → Option String)
    (anet : AchConfig → Option String) (locTable : String → AchLoc)
    (lbs : List LbConfig) (achs : List AchConfig) :
    ((create_all_leaderboards net lbs).filterMap fun c =>
        match c with
        | SetupCall.createLeaderboard cfg => some cfg
        | _ => none) = lbs ∧
    ((create_all_achievements anet locTable achs).filterMap fun c =>
        match c with
        | SetupCall.createAchievement cfg => some cfg
        | _ => none) = achs := by
  constructor
  · induction lbs with
    | nil => rfl
    | cons lb rest ih =>
        cases h : net lb <;>
          simp [create_all_leaderboards, h, List.filterMap_append, ih]
  · induction achs with
    | nil => rfl
    | cons ach rest ih =>
        cases h : anet ach <;>
          simp [create_all_achievements, h, List.filterMap_append, ih]

/-- The result of an `api_get` call as inspected by the pattern
`if result and result.get("data")`: either the None failure sentinel, or a
parsed body whose `data` field may be missing or empty (`success none`) or
truthy (`success (some d)`). -/
inductive GetDataResult (α : Type)
  | failure
  | success (dataField : Option α)
deriving DecidableEq

/-- `hasData r` is the Python truthiness of `result and result.get("data")`. -/
def hasData : GetDataResult α → Bool
  | GetDataResult.success (some _) => true
  | _ => false

/-- Embeds `delete_existing_image(token, resource_type, localization_type,
localization_id)` (upload_gc_images.py lines 160-176): `g` is the result of
the GET of the existing image relationship, `del` the oracle for
`api_delete` per image id.  Returns the Python return value together with the
trace of image ids for which a DELETE request was issued.  When the GET finds
an image, DELETE it and return whether the delete succeeded; otherwise return
True without issuing any DELETE. -/
def delete_existing_image (g : GetDataResult String) (del : String → Bool) :
    Bool × List String :=
  match g with
  | GetDataResult.success (some imageId) =>
      if del imageId then (true, [imageId]) else (false, [imageId])
  | _ => (true, [])

/-- Claim C7: when `delete_existing_image` finds no existing image for the
localization — the GET returned a success response without data, or the None
failure sentinel — it returns True and issues no DELETE request: deletion of
a non-existent related image is a no-op success. -/
theorem delete_existing_image_noop_success (g : GetDataResult String)
    (del : String → Bool)
    (h : g = GetDataResult.failure ∨ g = GetDataResult.success none) :
    delete_existing_image g del = (true, []) := by
  rcases h with h | h <;> rw [h] <;> rfl

theorem delete_existing_image_noop_success_witness :
    delete_existing_image GetDataResult.failure (fun _ => false) = (true, []) :=
  delete_existing_image_noop_success GetDataResult.failure (fun _ => false)
    (Or.inl rfl)

/-- One network request issued by upload_gc_images.py, used as the trace
alphabet of its embedded functions. -/
inductive UploadCall
  | getGCDetail
  | getPages (path : String)
  | getExistingImage
  | deleteImage (imageId : String)
  | postReservation
  | putChunk (op : UploadOp)
  | patchCommit (imageId : String)
deriving DecidableEq

/-- Embeds `create_and_upload_image(token, resource_type, localization_type,
localization_id, image_path)` (upload_gc_images.py lines 179-248).  Oracles:
`g` and `del` drive the preliminary `delete_existing_image` call (whose
result the code discards); `reservation` is the result of the reservation
POST — None for the sentinel, or the created image id with its
uploadOperations; `upNet` gives the status of each binary upload request;
`commitResp` is the result of the commit PATCH; `fileData` is the content of
the local file.  Returns the Python return value and the trace of requests
issued. -/
def create_and_upload_image (g : GetDataResult String) (del : String → Bool)
    (reservation : Option (String × List UploadOp)) (upNet : UploadOp → Nat)
    (commitResp : Option String) (fileData : List β) : Bool × List UploadCall :=
  let delTrace := UploadCall.getExistingImage ::
    ((delete_existing_image g del).2.map UploadCall.deleteImage)
  match reservation with
  | none => (false, delTrace ++ [UploadCall.postReservation])
  | some (imageId, uploadOps) =>
      if uploadOps = [] then (false, delTrace ++ [UploadCall.postReservation])
      else
        let up := upload_image_data upNet fileData uploadOps
        let upTrace := up.2.map fun oc => UploadCall.putChunk oc.1
        if up.1 then
          match commitResp with
          | some _ =>
              (true, delTrace ++ [UploadCall.postReservation] ++ upTrace
                ++ [UploadCall.patchCommit imageId])
          | none =>
              (false, delTrace ++ [UploadCall.postReservation] ++ upTrace
                ++ [UploadCall.patchCommit imageId])
        else (false, delTrace ++ [UploadCall.postReservation] ++ upTrace)

/-- The requests `create_and_upload_image` issues after its preliminary
delete stage. -/
def create_and_upload_image_tail (g : GetDataResult String)
    (del : String → Bool) (reservation : Option (String × List UploadOp))
    (upNet : UploadOp → Nat) (commitResp : Option String) (fileData : List β) :
    List UploadCall :=
  (create_and_upload_image g del reservation upNet commitResp fileData).2.drop
    (1 + ((delete_existing_image g del).2.length))

/-- Claim C10: the result of the preliminary deletion of a pre-existing image
is ignored by `create_and_upload_image`: for any two outcomes of the delete
stage — in particular a failing `delete_existing_image` against a succeeding
one — the reservation POST is issued all the same, the requests issued after
the delete stage are identical, and the returned success value is
identical. -/
theorem create_and_upload_image_ignores_delete_result
    (g g2 : GetDataResult String) (del del2 : String → Bool)
    (reservation : Option (String × List UploadOp)) (upNet : UploadOp → Nat)
    (commitResp : Option String) (fileData : List β) :
    UploadCall.postReservation
        ∈ (create_and_upload_image g del reservation upNet commitResp fileData).2 ∧
    (create_and_upload_image g del reservation upNet commitResp fileData).1
      = (create_and_upload_image g2 del2 reservation upNet commitResp fileData).1 ∧
    create_and_upload_image_tail g del reservation upNet commitResp fileData
      = create_and_upload_image_tail g2 del2 reservation upNet commitResp fileData := by
  have hdrop : ∀ (g3 : GetDataResult String) (del3 : String → Bool)
      (t : List UploadCall),
      List.drop (1 + ((delete_existing_image g3 del3).2.length))
        (UploadCall.getExistingImage ::
          (((delete_existing_image g3 del3).2.map UploadCall.deleteImage) ++ t))
        = t := by
    intro g3 del3 t
    have hl : (delete_existing_image g3 del3).2.length
        = ((delete_existing_image g3 del3).2.map UploadCall.deleteImage).length := by
      simp
    rw [Nat.add_comm, List.drop_succ_cons, hl, List.drop_left]
  unfold create_and_upload_image_tail create_and_upload_image
  match reservation with
  | none =>
      exact ⟨by simp, rfl, by simp; rw [hdrop g del, hdrop g2 del2]⟩
  | some (imageId, uploadOps) =>
      by_cases hops : uploadOps = []
      · exact ⟨by simp [hops], by simp [hops],
          by simp [hops]; rw [hdrop g del, hdrop g2 del2]⟩
      · by_cases hup : (upload_image_data upNet fileData uploadOps).1 = true
        · cases commitResp <;>
            exact ⟨by simp [hops, hup], by simp [hops, hup],
              by simp [hops, hup]; rw [hdrop g del, hdrop g2 del2]⟩
        · exact ⟨by simp [hops, hup], by simp [hops, hup],
            by simp [hops, hup]; rw [hdrop g del, hdrop g2 del2]⟩

/-- Command line flags of setup_game_center.py. -/
structure SetupArgs where
  dryRun : Bool
  leaderboardsOnly : Bool
  achievementsOnly : Bool
deriving DecidableEq

/-- The result of one script run, for the claims about exit status, requests
issued and dry-run listings: the process exit status, the trace of network
requests issued, and the planned items listed by a dry run. -/
structure RunResult (χ ω : Type) where
  exitCode : Nat
  calls : List χ
  listed : List ω
deriving DecidableEq

/-- Embeds `get_or_create_gc_detail(token, app_id)` (setup_game_center.py
lines 143-174): GET the gameCenterDetail relationship of the app; if it has
data use it, otherwise POST a new gameCenterDetail; if that also fails the
script calls `sys.exit(1)`, modelled by the `none` outcome which the caller
turns into exit status 1.  The second component is the trace of requests
issued. -/
def get_or_create_gc_detail (getResp : GetDataResult String)
    (postResp : Option String) : Option String × List SetupCall :=
  match getResp with
  | GetDataResult.success (some gcId) => (some gcId, [SetupCall.getGCDetail])
  | _ =>
      match postResp with
      | some gcId =>
          (some gcId, [SetupCall.getGCDetail, SetupCall.postGCDetail])
      | none => (none, [SetupCall.getGCDetail, SetupCall.postGCDetail])

/-- Embeds `main()` of setup_game_center.py (lines 329-362): in a dry run,
print the planned leaderboard and achievement list (modelled by their vendor
identifiers, in print order) and return without any request; otherwise
generate the token locally, get or create the Game Center detail (exiting 1
on failure), create the leaderboards unless `--achievements-only`, create the
achievements unless `--leaderboards-only`, and exit 0. -/
def setup_main (args : SetupArgs) (getResp : GetDataResult String)
    (postResp : Option String) (lbNet : LbConfig → Option String)
    (achNet : AchConfig → Option String) (locTable : String → AchLoc) :
    RunResult SetupCall String :=
  if args.dryRun then
    { exitCode := 0, calls := [],
      listed := SCORE_LEADERBOARDS.map (fun lb => lb.vendorIdentifier)
        ++ ACHIEVEMENTS.map (fun a => a.vendorIdentifier) }
  else
    let gc := get_or_create_gc_detail getResp postResp
    match gc.1 with
    | none => { exitCode := 1, calls := gc.2, listed := [] }
    | some _ =>
        let t1 := if args.achievementsOnly then []
          else create_all_leaderboards lbNet SCORE_LEADERBOARDS
        let t2 := if args.leaderboardsOnly then []
          else create_all_achievements achNet locTable ACHIEVEMENTS
        { exitCode := 0, calls := gc.2 ++ t1 ++ t2, listed := [] }

/-- One achievement or leaderboard item as the scripts read it from the
paginated fetch: server id, vendor identifier, reference name. -/
structure GCItem where
  id : String
  vendorIdentifier : String
  referenceName : String
deriving DecidableEq

/-- The oracles driving one `create_and_upload_image` run for one
localization in upload_gc_images.py. -/
structure ImageStepWorld (β : Type) where
  existingImage : GetDataResult String
  del : String → Bool
  reservation : Option (String × List UploadOp)
  upNet : UploadOp → Nat
  commitResp : Option String
  fileData : List β

/-- Embeds `upload_achievement_images` / `upload_leaderboard_images`
(upload_gc_images.py lines 253-317 and 322-386, which differ only in
resource names): GET the Game Center detail (returning after one request if
it has no data), fetch the item list by `api_get_all_pages` (abstracted by
its result `items`, verified separately), then for each item with an image
file present, fetch its localizations (abstracted by `locsOf`) and, when a
localization exists, run `create_and_upload_image` on the first one. -/
def upload_images_flow (gcResp : GetDataResult String) (itemsPath : String)
    (items : List GCItem) (fileExists : String → Bool)
    (locsOf : String → List String) (world : String → ImageStepWorld β) :
    List UploadCall :=
  match gcResp with
  | GetDataResult.success (some _) =>
      UploadCall.getGCDetail :: UploadCall.getPages itemsPath ::
        (items.map fun it =>
          if fileExists it.vendorIdentifier then
            UploadCall.getPages it.id ::
              (match locsOf it.id with
               | [] => []
               | locId :: _ =>
                   (create_and_upload_image (world locId).existingImage
                     (world locId).del (world locId).reservation
                     (world locId).upNet (world locId).commitResp
                     (world locId).fileData).2)
          else []).flatten
  | _ => [UploadCall.getGCDetail]

/-- Command line flags of upload_gc_images.py. -/
structure UploadArgs where
  dryRun : Bool
  achievementsOnly : Bool
  leaderboardsOnly : Bool
deriving DecidableEq

/-- Embeds `main()` of upload_gc_images.py (lines 391-427): in a dry run,
list the PNG files (name and size) of the two image directories (`achFiles`
and `lbFiles` are their sorted directory listings) and return without any
request; otherwise generate the token locally and run the achievement and
leaderboard flows as the `--achievements-only` / `--leaderboards-only` flags
dictate.  The script never exits with a non-zero status. -/
def upload_main (args : UploadArgs) (achFiles lbFiles : List (String × Nat))
    (achGC lbGC : GetDataResult String) (achItems lbItems : List GCItem)
    (achFileExists lbFileExists : String → Bool)
    (achLocsOf lbLocsOf : String → List String)
    (achWorld lbWorld : String → ImageStepWorld β) :
    RunResult UploadCall (String × Nat) :=
  if args.dryRun then
    { exitCode := 0, calls := [],
      listed := (achFiles.filter fun f => f.1.endsWith ".png")
        ++ (lbFiles.filter fun f => f.1.endsWith ".png") }
  else
    let doBoth := !args.achievementsOnly && !args.leaderboardsOnly
    let t1 := if doBoth || args.achievementsOnly then
        upload_images_flow achGC "gameCenterAchievements" achItems
          achFileExists achLocsOf achWorld
      else []
    let t2 := if doBoth || args.leaderboardsOnly then
        upload_images_flow lbGC "gameCenterLeaderboards" lbItems
          lbFileExists lbLocsOf lbWorld
      else []
    { exitCode := 0, calls := t1 ++ t2, listed := [] }

/-- Embeds steps 4 and 5 of add_gc_to_review.py (lines 154-197): for each
item, GET its releases (`getReleases` gives id and `live` flag per release,
or None on failure) and DELETE every non-live one, counting the deletions;
no outcome stops the loop. -/
def delete_releases_loop (getReleases : String → Option (List (String × Bool))) :
    List GCItem → Nat
  | [] => 0
  | it :: rest =>
      (match getReleases it.id with
       | some rels => (rels.filter fun r => !r.2).length
       | none => 0) + delete_releases_loop getReleases rest

/-- Embeds steps 6 and 7 of add_gc_to_review.py (lines 200-332): for each
item, GET its v2 versions; use the first, or create one when there is none
(on a failed creation count an error and continue); then POST the review
submission item, counting added or errors; no outcome stops the loop.
Returns (added, errors). -/
def add_versions_loop (getVer : String → Option (List String))
    (createVer : String → Option String) (postItem : String → Bool) :
    List GCItem → Nat × Nat
  | [] => (0, 0)
  | it :: rest =>
      let r := add_versions_loop getVer createVer postItem rest
      match getVer it.id with
      | some (v :: _) =>
          if postItem v then (r.1 + 1, r.2) else (r.1, r.2 + 1)
      | _ =>
          match createVer it.id with
          | some v => if postItem v then (r.1 + 1, r.2) else (r.1, r.2 + 1)
          | none => (r.1, r.2 + 1)

/-- Embeds `main()` of add_gc_to_review.py (lines 88-342): exit 1 when the
Game Center detail GET has no data; exit 1 when the review submissions GET
fails or returns no data; otherwise pick the first submission that has items
(falling back to the first submission), run the release deletion loops and
the version adding loops — none of which can terminate the run — and exit 0.
The second component is the printed summary (releases deleted per kind,
items (added, errors) per kind).  `achievements` and `leaderboards` abstract
the two paginated fetches, verified separately. -/
def add_gc_main (gcResp : GetDataResult String) (subsResp : Option (List String))
    (itemsOf : String → Option (List String))
    (achievements leaderboards : List GCItem)
    (getRelA getRelL : String → Option (List (String × Bool)))
    (getVerA getVerL : String → Option (List String))
    (createVerA createVerL : String → Option String)
    (postItemA postItemL : String → String → Bool) :
    Nat × (Nat × Nat × (Nat × Nat) × (Nat × Nat)) :=
  match gcResp with
  | GetDataResult.success (some _) =>
      match subsResp with
      | none => (1, (0, 0, (0, 0), (0, 0)))
      | some [] => (1, (0, 0, (0, 0), (0, 0)))
      | some (s0 :: srest) =>
          let reviewSubId :=
            (((s0 :: srest).find? fun sid =>
              match itemsOf sid with
              | some (_ :: _) => true
              | _ => false).getD s0)
          let d1 := delete_releases_loop getRelA achievements
          let d2 := delete_releases_loop getRelL leaderboards
          let a1 := add_versions_loop getVerA createVerA
            (postItemA reviewSubId) achievements
          let a2 := add_versions_loop getVerL createVerL
            (postItemL reviewSubId) leaderboards
          (0, (d1, d2, a1, a2))
  | _ => (1, (0, 0, (0, 0), (0, 0)))

/-- Embeds `main()` of submit_gc_for_review.py (lines 80-220): exit 1 when
the Game Center detail GET has no data; exit 1 when the filtered
appStoreVersions GET fails or returns no data; otherwise POST the
gameCenterAppVersion (falling back to a GET of an existing one, a mere
warning on double failure), POST the release request and, when that fails,
POST per-item releases — none of which can terminate the run — and exit 0.
The second component records whether a gameCenterAppVersion was obtained and
how many fallback release POSTs succeeded. -/
def submit_main (gcResp : GetDataResult String)
    (achievements leaderboards : List GCItem)
    (versionsResp : Option (List String))
    (gcAppVerPost : Option String) (gcAppVerGet : GetDataResult String)
    (releasePost : Option String)
    (achReleasePost lbReleasePost : String → Option String) :
    Nat × Bool × Nat :=
  match gcResp with
  | GetDataResult.success (some _) =>
      match versionsResp with
      | none => (1, false, 0)
      | some [] => (1, false, 0)
      | some (_ :: _) =>
          let gcAppVer : Bool :=
            match gcAppVerPost with
            | some _ => true
            | none => hasData gcAppVerGet
          let fallbackOks : Nat :=
            match releasePost with
            | some _ => 0
            | none =>
                (achievements.filter fun a => (achReleasePost a.id).isSome).length
                  + (leaderboards.filter fun lb => (lbReleasePost lb.id).isSome).length
          (0, gcAppVer, fallbackOks)
  | _ => (1, false, 0)

/-- Embeds `main()` of generate_gc_images.py (lines 266-308): when the font
file is missing, print an error and return (still exit status 0); otherwise
generate 2 * NUM_LEVELS + 1 images.  The script has no failure exit. -/
def generate_images_main (fontOk : Bool) : Nat × Nat :=
  if fontOk then (0, 2 * NUM_LEVELS + 1) else (0, 0)

/-- Claim C8: across all five scripts, the exit status is non-zero exactly on
the unrecoverable setup failures — for setup_game_center.py, no Game Center
detail found and none creatable (outside a dry run); for add_gc_to_review.py,
no Game Center detail or no active review submission; for
submit_gc_for_review.py, no Game Center detail or no matching app store
version; upload_gc_images.py and generate_gc_images.py exit zero in every
run — and in every other run, whatever the per-item failures, the exit status
is zero. -/
theorem scripts_exit_nonzero_only_on_setup_failures
    (sargs : SetupArgs) (sGet : GetDataResult String) (sPost : Option String)
    (lbNet : LbConfig → Option String) (achNet : AchConfig → Option String)
    (locTable : String → AchLoc)
    (aGC : GetDataResult String) (subsResp : Option (List String))
    (itemsOf : String → Option (List String)) (aAchs aLbs : List GCItem)
    (getRelA getRelL : String → Option (List (String × Bool)))
    (getVerA getVerL : String → Option (List String))
    (createVerA createVerL : String → Option String)
    (postItemA postItemL : String → String → Bool)
    (tGC : GetDataResult String) (tAchs tLbs : List GCItem)
    (versionsResp : Option (List String))
    (gcAppVerPost : Option String) (gcAppVerGet : GetDataResult String)
    (releasePost : Option String)
    (achReleasePost lbReleasePost : String → Option String)
    (uargs : UploadArgs) (achFiles lbFiles : List (String × Nat))
    (achGC lbGC : GetDataResult String) (achItems lbItems : List GCItem)
    (achFileExists lbFileExists : String → Bool)
    (achLocsOf lbLocsOf : String → List String)
    (achWorld lbWorld : String → ImageStepWorld Nat) (fontOk : Bool) :
    ((setup_main sargs sGet sPost lbNet achNet locTable).exitCode ≠ 0
        ↔ sargs.dryRun = false ∧ hasData sGet = false ∧ sPost = none) ∧
    ((add_gc_main aGC subsResp itemsOf aAchs aLbs getRelA getRelL getVerA
        getVerL createVerA createVerL postItemA postItemL).1 ≠ 0
        ↔ hasData aGC = false ∨ subsResp = none ∨ subsResp = some []) ∧
    ((submit_main tGC tAchs tLbs versionsResp gcAppVerPost gcAppVerGet
        releasePost achReleasePost lbReleasePost).1 ≠ 0
        ↔ hasData tGC = false ∨ versionsResp = none ∨ versionsResp = some []) ∧
    (upload_main uargs achFiles lbFiles achGC lbGC achItems lbItems
        achFileExists lbFileExists achLocsOf lbLocsOf achWorld lbWorld).exitCode
      = 0 ∧
    (generate_images_main fontOk).1 = 0 := by
  refine ⟨?_, ?_, ?_, ?_, ?_⟩
  · by_cases hd : sargs.dryRun = true
    · simp [setup_main, hd]
    · have hd2 : sargs.dryRun = false := by simpa using hd
      cases sGet with
      | failure =>
          cases sPost <;>
            simp [setup_main, get_or_create_gc_detail, hasData, hd2]
      | success d =>
          cases d <;> cases sPost <;>
            simp [setup_main, get_or_create_gc_detail, hasData, hd2]
  · cases aGC with
    | failure => simp [add_gc_main, hasData]
    | success d =>
        cases d with
        | none => simp [add_gc_main, hasData]
        | some x =>
            cases subsResp with
            | none => simp [add_gc_main, hasData]
            | some l => cases l <;> simp [add_gc_main, hasData]
  · cases tGC with
    | failure => simp [submit_main, hasData]
    | success d =>
        cases d with
        | none => simp [submit_main, hasData]
        | some x =>
            cases versionsResp with
            | none => simp [submit_main, hasData]
            | some l => cases l <;> simp [submit_main, hasData]
  · by_cases hd : uargs.dryRun = true <;> simp [upload_main, hd]
  · cases fontOk <;> simp [generate_images_main]

/-- Claim C9: with the `--dry-run` flag, setup_game_center.py and
upload_gc_images.py print the full list of items they would create or upload
(every planned leaderboard and achievement; every PNG file of the two image
directories with its size) and return having issued no network request
whatsoever. -/
theorem dry_run_issues_no_request (sargs : SetupArgs)
    (sGet : GetDataResult String) (sPost : Option String)
    (lbNet : LbConfig → Option String) (achNet : AchConfig → Option String)
    (locTable : String → AchLoc) (uargs : UploadArgs)
    (achFiles lbFiles : List (String × Nat)) (achGC lbGC : GetDataResult String)
    (achItems lbItems : List GCItem) (achFileExists lbFileExists : String → Bool)
    (achLocsOf lbLocsOf : String → List String)
    (achWorld lbWorld : String → ImageStepWorld Nat)
    (hs : sargs.dryRun = true) (hu : uargs.dryRun = true) :
    (setup_main sargs sGet sPost lbNet achNet locTable).calls = [] ∧
    (setup_main sargs sGet sPost lbNet achNet locTable).listed
      = SCORE_LEADERBOARDS.map (fun lb => lb.vendorIdentifier)
        ++ ACHIEVEMENTS.map (fun a => a.vendorIdentifier) ∧
    (upload_main uargs achFiles lbFiles achGC lbGC achItems lbItems
        achFileExists lbFileExists achLocsOf lbLocsOf achWorld lbWorld).calls
      = [] ∧
    (upload_main uargs achFiles lbFiles achGC lbGC achItems lbItems
        achFileExists lbFileExists achLocsOf lbLocsOf achWorld lbWorld).listed
      = (achFiles.filter fun f => f.1.endsWith ".png")
        ++ (lbFiles.filter fun f => f.1.endsWith ".png") := by
  refine ⟨?_, ?_, ?_, ?_⟩ <;> simp [setup_main, upload_main, hs, hu]

theorem dry_run_issues_no_request_witness :
    (setup_main ⟨true, false, false⟩ GetDataResult.failure none (fun _ => none)
        (fun _ => none) (fun _ => ⟨"", "", ""⟩)).calls = [] ∧
    (setup_main ⟨true, false, false⟩ GetDataResult.failure none (fun _ => none)
        (fun _ => none) (fun _ => ⟨"", "", ""⟩)).listed
      = SCORE_LEADERBOARDS.map (fun lb => lb.vendorIdentifier)
        ++ ACHIEVEMENTS.map (fun a => a.vendorIdentifier) ∧
    (upload_main ⟨true, false, false⟩ [("x.png", 4)] [] GetDataResult.failure
        GetDataResult.failure [] [] (fun _ => false) (fun _ => false)
        (fun _ => []) (fun _ => [])
        (fun _ => ⟨GetDataResult.failure, fun _ => false, none, fun _ => 0, none, ([] : List Nat)⟩)
        (fun _ => ⟨GetDataResult.failure, fun _ => false, none, fun _ => 0, none, []⟩)).calls
      = [] ∧
    (upload_main ⟨true, false, false⟩ [("x.png", 4)] [] GetDataResult.failure
        GetDataResult.failure [] [] (fun _ => false) (fun _ => false)
        (fun _ => []) (fun _ => [])
        (fun _ => ⟨GetDataResult.failure, fun _ => false, none, fun _ => 0, none, ([] : List Nat)⟩)
        (fun _ => ⟨GetDataResult.failure, fun _ => false, none, fun _ => 0, none, []⟩)).listed
      = (([("x.png", 4)] : List (String × Nat)).filter fun f => f.1.endsWith ".png")
        ++ (([] : List (String × Nat)).filter fun f => f.1.endsWith ".png") :=
  dry_run_issues_no_request ⟨true, false, false⟩ GetDataResult.failure none
    (fun _ => none) (fun _ => none) (fun _ => ⟨"", "", ""⟩) ⟨true, false, false⟩
    [("x.png", 4)] [] GetDataResult.failure GetDataResult.failure [] []
    (fun _ => false) (fun _ => false) (fun _ => []) (fun _ => [])
    (fun _ => ⟨GetDataResult.failure, fun _ => false, none, fun _ => 0, none, []⟩)
    (fun _ => ⟨GetDataResult.failure, fun _ => false, none, fun _ => 0, none, []⟩)
    rfl rfl

end NumberMarch
